import Mathlib

/-!
Verification of the fibertract crate: a shallow embedding, in Lean, of the
Weber quantizer (src/weber.rs), the deterministic noise mixer and the two
per-tract transmission pipelines (src/tract.rs), and the use-dependent
adaptation engine (src/adapt.rs), followed by theorems settling the spec's
claims about them.

Machine integers are embedded as `Nat` (for the unsigned u8/u16/u32/u64
values) and `Int` (for i32/i64), with explicit reduction `% 2^64` where the
source's u64 arithmetic wraps (the xorshift mixer), explicit saturation for
the source's `saturating_add` / `saturating_sub`, and explicit clamps where
the source clamps.  Rust's signed `/` and `%` truncate toward zero, while
Lean's `Int` `/` and `%` are Euclidean, so truncating division and remainder
are defined here (`tdiv`, `tmod`) and used wherever the source divides or
takes a remainder of a possibly-negative signed value.
-/

/-- Truncating (round-toward-zero) integer division, the semantics of Rust's
`/` on `i32`/`i64`.  For a nonnegative dividend it agrees with Euclidean
division; for a negative dividend it negates the division of the negation.
All divisors in this development are positive. -/
def tdiv (a b : Int) : Int := if 0 ≤ a then a / b else -((-a) / b)

/-- Truncating remainder, the semantics of Rust's `%` on `i64`: the sign
follows the dividend.  All divisors in this development are positive. -/
def tmod (a b : Int) : Int := if 0 ≤ a then a % b else -((-a) % b)

/-- Reinterpretation of a u64 bit pattern (a `Nat` below `2^64`) as an i64,
the semantics of Rust's `as i64` cast on a u64 value. -/
def u64_as_i64 (s : Nat) : Int :=
  if s < 9223372036854775808 then (s : Int) else (s : Int) - 18446744073709551616

/-- Saturating u8 addition (`u8::saturating_add`). -/
def sat8add (a b : Nat) : Nat := min (a + b) 255

/-- Saturating u64 addition (`u64::saturating_add`). -/
def sat64add (a b : Nat) : Nat := min (a + b) 18446744073709551615

/-- Clamp of an i64 value into the i32 range, the source's
`val.clamp(i32::MIN as i64, i32::MAX as i64)`. -/
def clampI32 (v : Int) : Int := max (-2147483648) (min 2147483647 v)

/-- Modelled from the spec: the `Signal` type of the external `ternary_signal`
crate, which is not part of this repository's sources.  Per the spec's data
model a motor signal is a polarity in {-1,0,1} (an i8 in the source) together
with a bounded 0-255 magnitude (a u8). -/
structure Signal where
  polarity : Int
  magnitude : Nat
deriving DecidableEq, Repr

/-- Modelled from the spec: `Signal::default()` of the external
`ternary_signal` crate, the all-zero signal. -/
def Signal.zero : Signal := { polarity := 0, magnitude := 0 }

/-- Weber-law quantization of a raw sensory value (src/weber.rs,
`weber_quantize`): the in-band multiple of the band step not exceeding the
absolute value, with the sign reapplied.  The source computes the step by a
`match` on the u32 absolute value with arms `0..=49`, `50..=199`, `200..=999`
and a catch-all.  The source's final `as i32` casts cannot wrap for i32
inputs (see `weber_quantize_natAbs_le` and `weber_quantize_i32_min`). -/
def weber_quantize (raw : Int) : Int :=
  if raw = 0 then 0
  else
    let abs_val : Nat := raw.natAbs
    let step : Nat :=
      if abs_val ≤ 49 then 5
      else if abs_val ≤ 199 then 10
      else if abs_val ≤ 999 then 15
      else 25
    let quantized_abs : Nat := abs_val / step * step
    if 0 < raw then (quantized_abs : Int) else -(quantized_abs : Int)

/-- Weber step size for a given magnitude (src/weber.rs, `weber_step`):
the same four-band table as `weber_quantize`. -/
def weber_step (magnitude : Nat) : Nat :=
  if magnitude ≤ 49 then 5
  else if magnitude ≤ 199 then 10
  else if magnitude ≤ 999 then 15
  else 25

/-- The spec's description of the quantizer, written from the spec's words
for the refinement claim: four bands (step 5 for magnitude 0-49, 10 for
50-199, 15 for 200-999, 25 for 1000 and above), quantized magnitude the
largest multiple of the step not exceeding the absolute input, sign
reapplied. -/
def weber_band_step (m : Nat) : Nat :=
  if m < 50 then 5 else if m < 200 then 10 else if m < 1000 then 15 else 25

/-- The spec's quantization formula `sign(x) * (floor(|x| / s) * s)` with `s`
the band step of `|x|`, written from the spec's words for the refinement
claim. -/
def weber_quantize_formula (x : Int) : Int :=
  Int.sign x * ((x.natAbs / weber_band_step x.natAbs * weber_band_step x.natAbs : Nat) : Int)

/-- Fast deterministic PRNG for jitter noise (src/tract.rs, `xorshift`):
three shift/XOR rounds on a u64 state.  The left shifts wrap modulo `2^64`,
hence the explicit reductions. -/
def xorshift (state : Nat) : Nat :=
  let s1 := (state ^^^ (state <<< 13)) % 18446744073709551616
  let s2 := s1 ^^^ (s1 >>> 7)
  (s2 ^^^ (s2 <<< 17)) % 18446744073709551616

/-- Receptor adaptation mode (src/tract.rs, `ReceptorMode`). -/
inductive ReceptorMode where
  | Phasic
  | Tonic
deriving DecidableEq, Repr

/-- Biological fiber tract kinds (src/tract.rs, `FiberTractKind`),
ordinals 0-6. -/
inductive FiberTractKind where
  | Proprioceptive
  | Mechanoreceptive
  | NociceptiveFast
  | NociceptiveSlow
  | Interoceptive
  | MotorSkeletal
  | MotorSpindle
deriving DecidableEq, Repr

/-- The fixed u8 ordinal of a tract kind (`#[repr(u8)]` discriminants 0-6). -/
def FiberTractKind.toU8 : FiberTractKind → Nat
  | .Proprioceptive => 0
  | .Mechanoreceptive => 1
  | .NociceptiveFast => 2
  | .NociceptiveSlow => 3
  | .Interoceptive => 4
  | .MotorSkeletal => 5
  | .MotorSpindle => 6

/-- Whether the kind is afferent (src/tract.rs: `(self as u8) < 5`). -/
def FiberTractKind.is_afferent (k : FiberTractKind) : Bool := k.toU8 < 5

/-- Whether the kind is efferent (src/tract.rs: `(self as u8) >= 5`). -/
def FiberTractKind.is_efferent (k : FiberTractKind) : Bool := 5 ≤ k.toU8

/-- A single fiber tract (src/tract.rs, `FiberTract`).  The u8 physical
properties and counters are embedded as `Nat`; the signal buffers as lists.

The field `input_density` is modelled from the spec: src/adapt.rs reads
`tract.input_density`, but no such field is declared on `FiberTract` in
src/tract.rs and no code anywhere in src/ ever writes one, so the crate as
given does not compile.  The spec's data model states that no separate
input-stimulation density channel exists, so the field is carried here as an
explicit state component (never written by any operation in this file, and
zero in every constructed tract). -/
structure FiberTract where
  kind : FiberTractKind
  dim : Nat
  motor_signals : List Signal
  sensory_signals : List Int
  motor_prev : List Signal
  sensory_prev : List Int
  conductivity : Nat
  jitter : Nat
  fatigue : Nat
  endurance : Nat
  elasticity : Nat
  sensitivity : Nat
  gain : Nat
  strength : Nat
  receptor_mode : ReceptorMode
  lifetime_activations : Nat
  recent_density : Nat
  input_density : Nat
deriving DecidableEq, Repr

/-- Construction of a motor (efferent) tract at default properties
(src/tract.rs, `FiberTract::new_motor`). -/
def new_motor (kind : FiberTractKind) (dim : Nat) : FiberTract :=
  { kind := kind
    dim := dim
    motor_signals := List.replicate dim Signal.zero
    sensory_signals := []
    motor_prev := List.replicate dim Signal.zero
    sensory_prev := []
    conductivity := 128
    jitter := 128
    fatigue := 0
    endurance := 128
    elasticity := 128
    sensitivity := 128
    gain := 160
    strength := 128
    receptor_mode := ReceptorMode.Phasic
    lifetime_activations := 0
    recent_density := 0
    input_density := 0 }

/-- Construction of a sensory (afferent) tract at default properties
(src/tract.rs, `FiberTract::new_sensory`). -/
def new_sensory (kind : FiberTractKind) (dim : Nat) : FiberTract :=
  { kind := kind
    dim := dim
    motor_signals := []
    sensory_signals := List.replicate dim 0
    motor_prev := []
    sensory_prev := List.replicate dim 0
    conductivity := 128
    jitter := 128
    fatigue := 0
    endurance := 128
    elasticity := 128
    sensitivity := 128
    gain := 100
    strength := 128
    receptor_mode := ReceptorMode.Phasic
    lifetime_activations := 0
    recent_density := 0
    input_density := 0 }

/-- Stage 4 of the motor pipeline (src/tract.rs lines 292-308): jitter
noise.  When jitter is positive, one xorshift draw yields a noise magnitude
`seed % (jitter/4 + 1)`, a second draw yields its sign, and the noisy
magnitude is clamped to [0,512]; when jitter exceeds 200 a third draw flips
the polarity with probability 1/8.  Returns the new magnitude, the polarity
and the threaded seed. -/
def motor_jitter_stage (jitter : Nat) (mag : Nat) (pol : Int) (seed : Nat) :
    Nat × Int × Nat :=
  if 0 < jitter then
    let s1 := xorshift seed
    let noise : Int := (s1 % (jitter / 4 + 1) : Nat)
    let s2 := xorshift s1
    let sign : Int := if s2 % 2 = 0 then 1 else -1
    let m : Nat := (max 0 (min 512 ((mag : Int) + noise * sign))).toNat
    if 200 < jitter then
      let s3 := xorshift s2
      (m, if s3 % 8 = 0 then -pol else pol, s3)
    else
      (m, pol, s2)
  else
    (mag, pol, seed)

/-- One channel of the motor pipeline (src/tract.rs lines 264-333).  A zero
input signal decays the previous output by the elasticity fraction;
otherwise the stages run in order: gain, conductivity loss, fatigue
degradation, jitter noise, recruitment threshold, clamp to u8, elasticity
smoothing.  Returns the output signal and the threaded seed. -/
def motor_channel (t : FiberTract) (sig : Signal) (prev : Signal) (seed : Nat) :
    Signal × Nat :=
  if sig.polarity = 0 ∨ sig.magnitude = 0 then
    let smoothed_mag := prev.magnitude * (255 - t.elasticity) / 255
    (if smoothed_mag = 0 then Signal.zero
     else { polarity := prev.polarity, magnitude := smoothed_mag }, seed)
  else
    let mag0 := sig.magnitude * t.gain / 128
    let mag1 := mag0 * t.conductivity / 255
    let mag2 := mag1 * (255 - t.fatigue) / 255
    let jres := motor_jitter_stage t.jitter mag2 sig.polarity seed
    let threshold := 255 - t.sensitivity
    let mag3 := if jres.1 < threshold then 0 else jres.1
    let target_mag := min mag3 255
    let prev_mag : Int := prev.magnitude
    let delta : Int := (target_mag : Int) - prev_mag
    let smoothed : Int := prev_mag + tdiv (delta * t.elasticity) 255
    let final_mag : Nat := (max 0 (min 255 smoothed)).toNat
    (if final_mag = 0 then Signal.zero
     else { polarity := jres.2.1, magnitude := final_mag }, jres.2.2)

/-- Helper loop of `transmit_motor`: processes channels pairwise from the
input and the previous-output buffer, threading the seed; once the input is
exhausted (or if it is longer than the buffer) the remaining channels are
zeroed, mirroring the source's `for i in 0..len` loop followed by the
zeroing loop over `len..dim`. -/
def motor_run (t : FiberTract) (inputs prevs : List Signal) (seed : Nat) :
    List Signal :=
  match inputs, prevs with
  | sig :: ins, prev :: ps =>
      let r := motor_channel t sig prev seed
      r.1 :: motor_run t ins ps r.2
  | _, ps => ps.map (fun _ => Signal.zero)

/-- Motor transmission (src/tract.rs, `transmit_motor`): shapes the first
`min(input.len, dim)` channels and zeroes the rest, writing the result to
both the current and the previous-output motor buffers. -/
def transmit_motor (t : FiberTract) (input : List Signal) (rng_seed : Nat) :
    FiberTract :=
  let out := motor_run t input t.motor_prev rng_seed
  { t with motor_signals := out, motor_prev := out }

/-- The sensory jitter noise term (src/tract.rs lines 379-381): one xorshift
draw reinterpreted as an i64, reduced by the truncating remainder modulo
`jitter + 1`, shifted down by `jitter / 2`.  The remainder is truncating, so
its sign follows the (possibly negative) reinterpreted state. -/
def sensory_noise (jitter : Nat) (seed : Nat) : Int :=
  tmod (u64_as_i64 (xorshift seed)) ((jitter : Int) + 1) - (jitter : Int) / 2

/-- Stages 1-4 of the sensory pipeline on a nonzero quantized value
(src/tract.rs lines 366-383): gain, conductivity loss, fatigue degradation
(i64 truncating arithmetic), then jitter noise when jitter is positive.
Returns the post-jitter value and the threaded seed.  No stage reads the
receptor mode. -/
def sensory_pre_threshold (t : FiberTract) (quantized : Int) (seed : Nat) :
    Int × Nat :=
  let v0 := tdiv (quantized * t.gain) 128
  let v1 := tdiv (v0 * t.conductivity) 255
  let v2 := tdiv (v1 * ((255 : Int) - t.fatigue)) 255
  if 0 < t.jitter then (v2 + sensory_noise t.jitter seed, xorshift seed)
  else (v2, seed)

/-- Stage 5 of the sensory pipeline (src/tract.rs lines 385-393): the
sensitivity threshold, applied only in phasic receptor mode; values with
absolute magnitude below `(255 - sensitivity) * 4` are zeroed, and tonic
mode passes every value through unchanged. -/
def sensory_threshold_stage (mode : ReceptorMode) (sensitivity : Nat) (val : Int) :
    Int :=
  if mode = ReceptorMode.Phasic then
    if |val| < ((255 : Int) - sensitivity) * 4 then 0 else val
  else val

/-- Stage 6 of the sensory pipeline (src/tract.rs lines 398-401): elasticity
smoothing of the previous output toward the target, followed by the final
clamp to the i32 range. -/
def sensory_smooth (elasticity : Nat) (prev target : Int) : Int :=
  clampI32 (prev + tdiv ((target - prev) * elasticity) 255)

/-- One channel of the sensory pipeline (src/tract.rs lines 353-405): Weber
quantization first; a zero quantized value decays the previous output by the
elasticity fraction; otherwise the pre-threshold stages, the mode-dependent
threshold, the clamp to the i32 range and the elasticity smoothing run in
order.  Returns the output value and the threaded seed.  The signed
products are embedded without machine wrapping: the source's i64 products
stay far below the i64 bounds, and only the decay branch's i32 product
`prev * (255 - elasticity)` could exceed the i32 range (for previous
outputs above `2^31 / 255`), a regime none of the theorems below rely
on. -/
def sensory_channel (t : FiberTract) (x : Int) (prev : Int) (seed : Nat) :
    Int × Nat :=
  let quantized := weber_quantize x
  if quantized = 0 then
    (tdiv (prev * ((255 : Int) - t.elasticity)) 255, seed)
  else
    let p := sensory_pre_threshold t quantized seed
    let val := sensory_threshold_stage t.receptor_mode t.sensitivity p.1
    let target := clampI32 val
    (sensory_smooth t.elasticity prev target, p.2)

/-- Helper loop of `transmit_sensory`, mirroring `motor_run`: channels are
processed pairwise from the input and the previous-output buffer with the
seed threaded through, and the remaining channels are zeroed. -/
def sensory_run (t : FiberTract) (inputs : List Int) (prevs : List Int) (seed : Nat) :
    List Int :=
  match inputs, prevs with
  | x :: ins, prev :: ps =>
      let r := sensory_channel t x prev seed
      r.1 :: sensory_run t ins ps r.2
  | _, ps => ps.map (fun _ => 0)

/-- Sensory transmission (src/tract.rs, `transmit_sensory`): shapes the
first `min(input.len, dim)` channels and zeroes the rest, writing the result
to both the current and the previous-output sensory buffers. -/
def transmit_sensory (t : FiberTract) (input : List Int) (rng_seed : Nat) :
    FiberTract :=
  let out := sensory_run t input t.sensory_prev rng_seed
  { t with sensory_signals := out, sensory_prev := out }

/-- Whether any signal is actively being transmitted (src/tract.rs,
`is_active`): some motor channel has nonzero polarity and positive
magnitude, or some sensory channel is nonzero. -/
def is_active (t : FiberTract) : Bool :=
  if t.kind.is_efferent then
    t.motor_signals.any (fun s => decide (s.polarity ≠ 0) && decide (0 < s.magnitude))
  else
    t.sensory_signals.any (fun v => decide (v ≠ 0))

/-- Adaptation rate constants (src/adapt.rs, `AdaptationConfig`), all u8. -/
structure AdaptationConfig where
  myelination_rate : Nat
  demyelination_rate : Nat
  jitter_improvement_rate : Nat
  jitter_decay_rate : Nat
  fatigue_rate : Nat
  recovery_rate : Nat
  strengthening_rate : Nat
  atrophy_rate : Nat
  atrophy_delay : Nat
  idle_threshold : Nat
  sensitization_rate : Nat
  desensitization_rate : Nat
deriving DecidableEq, Repr

/-- Default adaptation rates (src/adapt.rs, `impl Default for
AdaptationConfig`). -/
def default_adaptation_config : AdaptationConfig :=
  { myelination_rate := 1
    demyelination_rate := 1
    jitter_improvement_rate := 1
    jitter_decay_rate := 1
    fatigue_rate := 2
    recovery_rate := 3
    strengthening_rate := 1
    atrophy_rate := 1
    atrophy_delay := 50
    idle_threshold := 10
    sensitization_rate := 1
    desensitization_rate := 1 }

/-- One adaptation tick of a single tract (src/adapt.rs, `adapt_tract`),
translated statement by statement.  `density` and `input_density` are the
values read at entry, as in the source's leading `let` bindings.  The
output-driven section updates the lifetime count, the rolling density,
fatigue and strength; the input-driven section gates myelination,
sensitization and the jitter updates on `input_density` — the field that
src/tract.rs never declares and src/ never writes (see `FiberTract`). -/
def adapt_tract (t : FiberTract) (config : AdaptationConfig) : FiberTract :=
  let active := is_active t
  let density := t.recent_density
  let input_density := t.input_density
  let t1 :=
    if active then
      let ta := { t with lifetime_activations := sat64add t.lifetime_activations 1,
                         recent_density := max (sat8add density ((255 - density) / 16))
                                               (sat8add density 1) }
      let effective_fatigue_rate :=
        if t.endurance / 32 < config.fatigue_rate then
          config.fatigue_rate - t.endurance / 32
        else 0
      let tb := { ta with fatigue := sat8add ta.fatigue effective_fatigue_rate }
      if 128 < tb.fatigue ∧ 100 < density then
        { tb with strength := sat8add tb.strength config.strengthening_rate }
      else tb
    else
      let ta := { t with recent_density := density - max (density / 16) 1 }
      let effective_recovery := sat8add config.recovery_rate (t.endurance / 64)
      let tb := { ta with fatigue := ta.fatigue - effective_recovery }
      if density = 0 ∧ 0 < t.lifetime_activations then
        { tb with strength := tb.strength - config.atrophy_rate }
      else tb
  let input_active := config.idle_threshold < input_density
  if input_active then
    let t2 := { t1 with conductivity := sat8add t1.conductivity config.myelination_rate,
                        sensitivity := sat8add t1.sensitivity config.sensitization_rate }
    if 128 < input_density then
      { t2 with jitter := t2.jitter - config.jitter_improvement_rate }
    else t2
  else
    let t2 :=
      if input_density = 0 ∧ density < config.idle_threshold then
        { t1 with conductivity := t1.conductivity - config.demyelination_rate }
      else t1
    let t3 :=
      if input_density = 0 then
        { t2 with sensitivity := t2.sensitivity - config.desensitization_rate }
      else t2
    if input_density = 0 ∧ density < config.idle_threshold then
      { t3 with jitter := sat8add t3.jitter config.jitter_decay_rate }
    else t3

/-- A motor tract with unity conductivity, no recruitment threshold, no
jitter and instantaneous elasticity, amplifying gain 200 (the configuration
of the spec's motor-amplification example and of the source's
`motor_tract_amplifies` test). -/
def amp_test_tract : FiberTract :=
  { new_motor FiberTractKind.MotorSkeletal 1 with
      gain := 200, conductivity := 255, jitter := 0, sensitivity := 255,
      elasticity := 255 }

/-- A freshly constructed motor tract carrying one nonzero signal, hence
active for the adaptation engine. -/
def active_test_tract : FiberTract :=
  { new_motor FiberTractKind.MotorSkeletal 1 with
      motor_signals := [{ polarity := 1, magnitude := 100 }] }

/-- A motor tract at rest (all signals zero) with accumulated fatigue,
a small rolling density, prior lifetime activations and some strength. -/
def idle_test_tract : FiberTract :=
  { new_motor FiberTractKind.MotorSkeletal 1 with
      fatigue := 200, recent_density := 5, lifetime_activations := 3,
      strength := 100 }

/-- A tonic sensory tract in the configuration of the source's
`tonic_receptor_bypasses_threshold` test: attenuating gain 100, conductivity
128, no jitter, sensitivity 180 (phasic threshold 300), instantaneous
elasticity. -/
def tonic_test_tract : FiberTract :=
  { new_sensory FiberTractKind.Mechanoreceptive 1 with
      gain := 100, conductivity := 128, jitter := 0, sensitivity := 180,
      elasticity := 255, receptor_mode := ReceptorMode.Tonic }

/-!
Supporting lemmas about the Weber quantizer.
-/

/-- The step table inlined in `weber_quantize` (and `weber_step`) agrees
with the spec-side band table. -/
theorem weber_step_table_eq (a : Nat) :
    (if a ≤ 49 then 5 else if a ≤ 199 then (10 : Nat) else if a ≤ 999 then 15 else 25) =
      weber_band_step a := by
  unfold weber_band_step
  split_ifs <;> omega

/-- Unfolding of `weber_quantize` on a positive input. -/
theorem weber_quantize_eq_pos {x : Int} (hx : 0 < x) :
    weber_quantize x =
      ((x.natAbs / weber_band_step x.natAbs * weber_band_step x.natAbs : Nat) : Int) := by
  simp only [weber_quantize, weber_step_table_eq]
  rw [if_neg (by omega), if_pos hx]

/-- Unfolding of `weber_quantize` on a negative input. -/
theorem weber_quantize_eq_neg {x : Int} (hx : x < 0) :
    weber_quantize x =
      -((x.natAbs / weber_band_step x.natAbs * weber_band_step x.natAbs : Nat) : Int) := by
  simp only [weber_quantize, weber_step_table_eq]
  rw [if_neg (by omega), if_neg (by omega)]

/-- The quantized magnitude never exceeds the input magnitude; in
particular, for an i32 input the source's `quantized_abs as i32` casts
cannot wrap (the magnitude stays well below `2^31`). -/
theorem weber_quantize_natAbs_le (x : Int) : (weber_quantize x).natAbs ≤ x.natAbs := by
  rcases lt_trichotomy x 0 with hx | rfl | hx
  · rw [weber_quantize_eq_neg hx, Int.natAbs_neg, Int.natAbs_ofNat]
    exact Nat.div_mul_le_self _ _
  · decide
  · rw [weber_quantize_eq_pos hx, Int.natAbs_ofNat]
    exact Nat.div_mul_le_self _ _

/-- Even at the extreme i32 input `-2^31` (absolute value `2^31`, not a
multiple of the band step 25) the quantized magnitude stays strictly below
`2^31`, so the source's `quantized_abs as i32` never wraps on i32 inputs. -/
theorem weber_quantize_i32_min :
    (weber_quantize (-2147483648)).natAbs = 2147483625 ∧ 2147483625 < 2 ^ 31 := by
  decide

/-- Requantizing an already-quantized magnitude is the identity, provided
the magnitude does not come from the narrow boundary window 200-209 (whose
quantized value 195 falls back into the coarser band below). -/
theorem weber_requantize (a : Nat) (h : a < 200 ∨ 209 < a) :
    a / weber_band_step a * weber_band_step a /
        weber_band_step (a / weber_band_step a * weber_band_step a) *
        weber_band_step (a / weber_band_step a * weber_band_step a) =
      a / weber_band_step a * weber_band_step a := by
  unfold weber_band_step
  split_ifs <;> omega

/-- C4: for every input x, `weber_quantize x` equals the spec formula
`sign(x) * (floor(|x| / s) * s)` with s the four-band step of |x| (5 for
0-49, 10 for 50-199, 15 for 200-999, 25 for 1000 and above); zero maps to
zero, and quantization is odd: `weber_quantize (-x) = -weber_quantize x`. -/
theorem weber_quantize_matches_spec_formula :
    (∀ x : Int, weber_quantize x = weber_quantize_formula x) ∧
    weber_quantize 0 = 0 ∧
    (∀ x : Int, weber_quantize (-x) = -weber_quantize x) := by
  refine ⟨?_, by decide, ?_⟩
  · intro x
    rcases lt_trichotomy x 0 with hx | rfl | hx
    · rw [weber_quantize_eq_neg hx]
      unfold weber_quantize_formula
      rw [Int.sign_eq_neg_one_of_neg hx, neg_one_mul]
    · decide
    · rw [weber_quantize_eq_pos hx]
      unfold weber_quantize_formula
      rw [Int.sign_eq_one_of_pos hx, one_mul]
  · intro x
    rcases lt_trichotomy x 0 with hx | rfl | hx
    · rw [weber_quantize_eq_pos (by omega : (0 : Int) < -x),
          weber_quantize_eq_neg hx, Int.natAbs_neg, neg_neg]
    · decide
    · rw [weber_quantize_eq_neg (by omega : -x < 0),
          weber_quantize_eq_pos hx, Int.natAbs_neg]

/-- C6 (counterexample): the claimed relative-resolution monotonicity
`step(m1) * m2 >= step(m2) * m1` fails at the band boundary m1 = 49,
m2 = 50: step jumps from 5 to 10 while the magnitude barely grows, so
5/49 < 10/50. -/
theorem weber_step_relative_resolution_cex :
    0 < 49 ∧ 49 < 50 ∧ weber_step 49 * 50 < weber_step 50 * 49 := by decide

/-- C6 (amended): the Weber step is monotonically non-decreasing in the
magnitude, and within a band (equal steps) the relative resolution
`step(m)/m` is monotonically non-increasing:
`step(m2) * m1 <= step(m1) * m2` whenever step(m1) = step(m2). -/
theorem weber_step_relative_resolution_within_band :
    ∀ m1 m2 : Nat, 0 < m1 → m1 < m2 →
      weber_step m1 ≤ weber_step m2 ∧
      (weber_step m1 = weber_step m2 → weber_step m2 * m1 ≤ weber_step m1 * m2) := by
  intro m1 m2 h1 h12
  refine ⟨?_, ?_⟩
  · unfold weber_step
    split_ifs <;> omega
  · intro h
    rw [h]
    exact Nat.mul_le_mul_left _ (le_of_lt h12)

/-- C6 (witness): within the 50-199 band, at m1 = 60 and m2 = 100, the
relative resolution does not increase. -/
theorem weber_step_relative_resolution_witness :
    weber_step 100 * 60 ≤ weber_step 60 * 100 :=
  (weber_step_relative_resolution_within_band 60 100 (by decide) (by decide)).2 (by decide)

/-- C7 (counterexample): Weber quantization is not idempotent: 200
quantizes to 195 (step 15), but 195 lies in the 50-199 band with step 10
and requantizes to 190. -/
theorem weber_quantize_not_idempotent_at_200 :
    weber_quantize 200 = 195 ∧
    weber_quantize (weber_quantize 200) = 190 ∧ (190 : Int) ≠ 195 := by decide

/-- C7 (amended): Weber quantization is idempotent on every input whose
absolute value is not in the boundary window 200-209 (exactly the inputs
whose quantized magnitude 195 drops back into the finer band). -/
theorem weber_quantize_idempotent_off_boundary :
    ∀ x : Int, x.natAbs < 200 ∨ 209 < x.natAbs →
      weber_quantize (weber_quantize x) = weber_quantize x := by
  intro x hx
  rcases lt_trichotomy x 0 with h | rfl | h
  · rw [weber_quantize_eq_neg h]
    by_cases hq : (x.natAbs / weber_band_step x.natAbs * weber_band_step x.natAbs) = 0
    · rw [hq]
      decide
    · have hneg : -((x.natAbs / weber_band_step x.natAbs * weber_band_step x.natAbs : Nat) : Int) < 0 := by
        omega
      rw [weber_quantize_eq_neg hneg, Int.natAbs_neg, Int.natAbs_ofNat,
          weber_requantize x.natAbs hx]
  · decide
  · rw [weber_quantize_eq_pos h]
    by_cases hq : (x.natAbs / weber_band_step x.natAbs * weber_band_step x.natAbs) = 0
    · rw [hq]
      decide
    · have hpos : (0 : Int) < ((x.natAbs / weber_band_step x.natAbs * weber_band_step x.natAbs : Nat) : Int) := by
        omega
      rw [weber_quantize_eq_pos hpos, Int.natAbs_ofNat,
          weber_requantize x.natAbs hx]

/-- C7 (witness): idempotence at the concrete input 137 (band 50-199). -/
theorem weber_quantize_idempotent_witness :
    weber_quantize (weber_quantize 137) = weber_quantize 137 :=
  weber_quantize_idempotent_off_boundary 137 (Or.inl (by decide))

/-!
Supporting lemmas about the motor pipeline.
-/

/-- Truncating division cancels an exact positive factor. -/
theorem tdiv_mul_cancel (d c : Int) (hc : 0 < c) : tdiv (d * c) c = d := by
  unfold tdiv
  split_ifs with h
  · exact Int.mul_ediv_cancel d hc.ne'
  · rw [← neg_mul, Int.mul_ediv_cancel _ hc.ne', neg_neg]

/-- With zero jitter the jitter stage is the identity. -/
theorem motor_jitter_stage_zero (mag : Nat) (pol : Int) (seed : Nat) :
    motor_jitter_stage 0 mag pol seed = (mag, pol, seed) := by
  simp [motor_jitter_stage]

/-- With zero jitter the motor channel does not consume the seed. -/
theorem motor_channel_seed_of_no_jitter (t : FiberTract) (sig prev : Signal)
    (seed : Nat) (hj : t.jitter = 0) : (motor_channel t sig prev seed).2 = seed := by
  simp only [motor_channel, hj, motor_jitter_stage_zero]
  split_ifs <;> rfl

/-- Channel-indexed description of `motor_run` when the tract has zero
jitter (so the seed is constant across channels). -/
theorem motor_run_get_no_jitter (t : FiberTract) (hj : t.jitter = 0) :
    ∀ (inputs prevs : List Signal) (seed i : Nat) (sig prev : Signal),
      inputs.get? i = some sig → prevs.get? i = some prev →
      (motor_run t inputs prevs seed).get? i = some (motor_channel t sig prev seed).1 := by
  intro inputs
  induction inputs with
  | nil =>
      intro prevs seed i sig prev h1 h2
      simp at h1
  | cons a as ih =>
      intro prevs seed i sig prev h1 h2
      cases prevs with
      | nil => simp at h2
      | cons p ps =>
          cases i with
          | zero =>
              simp only [List.get?_cons_zero, Option.some.injEq] at h1 h2
              subst h1
              subst h2
              simp [motor_run]
          | succ n =>
              simp only [List.get?_cons_succ] at h1 h2
              have hseed : (motor_channel t a p seed).2 = seed :=
                motor_channel_seed_of_no_jitter t a p seed hj
              simp only [motor_run, List.get?_cons_succ, hseed]
              exact ih ps seed n sig prev h1 h2

/-- Evaluation of one motor channel on a nonzero input signal under unity
conductivity, full sensitivity (no recruitment threshold), zero jitter and
instantaneous elasticity: the output magnitude is the gain- and
fatigue-scaled input magnitude clamped to 255, with the input polarity
unless the magnitude collapses to zero. -/
theorem motor_channel_unity (t : FiberTract) (sig prev : Signal) (seed : Nat)
    (hc : t.conductivity = 255) (hs : t.sensitivity = 255) (hj : t.jitter = 0)
    (he : t.elasticity = 255) (hp : sig.polarity ≠ 0) (hm : sig.magnitude ≠ 0) :
    motor_channel t sig prev seed =
      (if sig.magnitude * t.gain / 128 * (255 - t.fatigue) / 255 = 0 then Signal.zero
       else { polarity := sig.polarity,
              magnitude := min (sig.magnitude * t.gain / 128 * (255 - t.fatigue) / 255) 255 },
       seed) := by
  have hzero : ¬ (sig.polarity = 0 ∨ sig.magnitude = 0) := by
    rintro (h | h)
    · exact hp h
    · exact hm h
  have h255 : sig.magnitude * t.gain / 128 * 255 / 255 = sig.magnitude * t.gain / 128 := by
    omega
  simp only [motor_channel, hc, hs, hj, he, motor_jitter_stage_zero, h255]
  rw [if_neg hzero, Nat.sub_self]
  rw [if_neg (Nat.not_lt_zero _)]
  simp only [Nat.cast_ofNat]
  rw [tdiv_mul_cancel _ _ (by norm_num)]
  have happ : ∀ a b : Int, a + (b - a) = b := by
    intro a b
    ring
  rw [happ]
  have hfin : (max 0 (min 255 ((min (sig.magnitude * t.gain / 128 * (255 - t.fatigue) / 255) 255 : Nat) : Int))).toNat =
      min (sig.magnitude * t.gain / 128 * (255 - t.fatigue) / 255) 255 := by
    omega
  rw [hfin]
  by_cases h0 : sig.magnitude * t.gain / 128 * (255 - t.fatigue) / 255 = 0
  · simp [h0]
  · rw [if_neg (by omega), if_neg h0]

/-- C1 (counterexample): with conductivity 255, sensitivity 255, jitter 0,
elasticity 255, fatigue 0 and gain 200, the input magnitude 200 is mapped to
255 (clamped to the u8 range), not to `floor(200 * 200 / 128) = 312` as the
claim's unclamped formula demands. -/
theorem transmit_motor_amplification_cex :
    (transmit_motor amp_test_tract [{ polarity := 1, magnitude := 200 }] 0).motor_signals =
      [{ polarity := 1, magnitude := 255 }] ∧
    200 * 200 / 128 = 312 ∧ (255 : Nat) ≠ 312 := by decide

/-- C1 (amended): for every motor tract with conductivity 255, sensitivity
255 (no recruitment threshold), jitter 0 and elasticity 255, each processed
input channel with nonzero polarity and nonzero magnitude m is mapped to the
magnitude `min(floor(floor(m * gain / 128) * (255 - fatigue) / 255), 255)`
— with fatigue at its default 0 this is `min(floor(m * gain / 128), 255)` —
carrying the input polarity when that magnitude is nonzero, and the all-zero
signal otherwise.  In particular gain 200, m 100, fatigue 0 gives 156, and
gain 128, fatigue 128, m 200 gives 99 = floor(200 * 127 / 255). -/
theorem transmit_motor_amplification :
    ∀ (t : FiberTract) (input : List Signal) (seed i : Nat) (sig prev : Signal),
      t.conductivity = 255 → t.sensitivity = 255 → t.jitter = 0 →
      t.elasticity = 255 →
      input.get? i = some sig → t.motor_prev.get? i = some prev →
      sig.polarity ≠ 0 → sig.magnitude ≠ 0 →
      (transmit_motor t input seed).motor_signals.get? i =
        some (if sig.magnitude * t.gain / 128 * (255 - t.fatigue) / 255 = 0
              then Signal.zero
              else { polarity := sig.polarity,
                     magnitude := min (sig.magnitude * t.gain / 128 * (255 - t.fatigue) / 255) 255 }) := by
  intro t input seed i sig prev hc hs hj he h1 h2 hp hm
  have hrun := motor_run_get_no_jitter t hj input t.motor_prev seed i sig prev h1 h2
  have hch := motor_channel_unity t sig prev seed hc hs hj he hp hm
  simp only [transmit_motor]
  rw [hrun, hch]

/-- C1 (witness): the two concrete examples of the claim hold: gain 200 and
input magnitude 100 yield output magnitude 156 with the input polarity, and
gain 128 with fatigue 128 and input magnitude 200 yield 99. -/
theorem transmit_motor_amplification_witness :
    (transmit_motor amp_test_tract [{ polarity := 1, magnitude := 100 }] 7).motor_signals.get? 0 =
      some { polarity := 1, magnitude := 156 } ∧
    (transmit_motor { amp_test_tract with gain := 128, fatigue := 128 }
        [{ polarity := 1, magnitude := 200 }] 7).motor_signals.get? 0 =
      some { polarity := 1, magnitude := 99 } := by
  constructor
  · have h := transmit_motor_amplification amp_test_tract
      [{ polarity := 1, magnitude := 100 }] 7 0 { polarity := 1, magnitude := 100 }
      Signal.zero (by decide) (by decide) (by decide) (by decide) (by decide) (by decide)
      (by decide) (by decide)
    exact h.trans (by decide)
  · have h := transmit_motor_amplification { amp_test_tract with gain := 128, fatigue := 128 }
      [{ polarity := 1, magnitude := 200 }] 7 0 { polarity := 1, magnitude := 200 }
      Signal.zero (by decide) (by decide) (by decide) (by decide) (by decide) (by decide)
      (by decide) (by decide)
    exact h.trans (by decide)

/-!
Supporting lemmas about the noise mixer and the sensory jitter stage.
-/

/-- The mixer state always stays below `2^64`. -/
theorem xorshift_lt (state : Nat) : xorshift state < 18446744073709551616 := by
  unfold xorshift
  exact Nat.mod_lt _ (by norm_num)

/-- Zero is a fixed point of the mixer. -/
theorem xorshift_zero : xorshift 0 = 0 := by decide

/-- At seed zero the motor jitter stage leaves the seed at zero. -/
theorem motor_jitter_stage_seed_zero (j mag : Nat) (pol : Int) :
    (motor_jitter_stage j mag pol 0).2.2 = 0 := by
  simp only [motor_jitter_stage, xorshift_zero]
  split_ifs <;> rfl

/-- At seed zero the sensory pre-threshold stages leave the seed at zero. -/
theorem sensory_pre_threshold_seed_zero (t : FiberTract) (q : Int) :
    (sensory_pre_threshold t q 0).2 = 0 := by
  simp only [sensory_pre_threshold, xorshift_zero]
  split_ifs <;> rfl

/-- C10: the noise mixer has fixed point zero, so a transmission with seed 0
threads state 0 through every channel; at state 0 the motor jitter stage
adds zero noise and, exactly when jitter exceeds 200, deterministically
flips the polarity; and the sensory jitter noise is the constant offset
`-(jitter / 2)` whenever jitter is positive. -/
theorem noise_mixer_zero_seed :
    xorshift 0 = 0 ∧
    (∀ (j mag : Nat) (pol : Int), mag ≤ 508 →
      motor_jitter_stage j mag pol 0 = (mag, if 200 < j then -pol else pol, 0)) ∧
    (∀ (t : FiberTract) (sig prev : Signal), (motor_channel t sig prev 0).2 = 0) ∧
    (∀ (t : FiberTract) (x prev : Int), (sensory_channel t x prev 0).2 = 0) ∧
    (∀ j : Nat, 0 < j → sensory_noise j 0 = -((j : Int) / 2)) := by
  refine ⟨xorshift_zero, ?_, ?_, ?_, ?_⟩
  · intro j mag pol hmag
    by_cases hj : 0 < j
    · simp only [motor_jitter_stage, if_pos hj, xorshift_zero, Nat.zero_mod,
        Nat.cast_zero, zero_mul, add_zero]
      have hm : (max 0 (min 512 ((mag : Int)))).toNat = mag := by omega
      rw [hm]
      by_cases hj2 : 200 < j
      · simp [hj2]
      · rw [if_neg hj2, if_neg hj2]
    · have hj0 : j = 0 := by omega
      subst hj0
      rw [motor_jitter_stage_zero, if_neg (by omega)]
  · intro t sig prev
    simp only [motor_channel]
    split_ifs <;> simp [motor_jitter_stage_seed_zero]
  · intro t x prev
    simp only [sensory_channel]
    split_ifs <;> simp [sensory_pre_threshold_seed_zero]
  · intro j hj
    simp [sensory_noise, tmod, u64_as_i64, xorshift_zero]

/-- C10 (witness): at seed 0 with jitter 201 the motor stage keeps magnitude
100 and flips polarity 1 to -1, and the sensory noise at jitter 8 is the
constant -4. -/
theorem noise_mixer_zero_seed_witness :
    motor_jitter_stage 201 100 1 0 = (100, -1, 0) ∧ sensory_noise 8 0 = -4 := by
  constructor
  · exact ((noise_mixer_zero_seed).2.1 201 100 1 (by decide)).trans (by decide)
  · exact ((noise_mixer_zero_seed).2.2.2.2 8 (by decide)).trans (by decide)

/-- C8 (counterexample): the sensory jitter noise is not confined to
`[-jitter/2, +jitter/2]`: with jitter 4 and seed `2^46` the xorshifted
state has its top bit set, the i64 reinterpretation is negative, and the
noise evaluates to -3, outside [-2, 2]. -/
theorem sensory_noise_out_of_claimed_range :
    sensory_noise 4 70368744177664 = -3 ∧ ¬ (-((4 : Int) / 2) ≤ -3) := by decide

/-- C8 (amended): for positive jitter the sensory noise always lies in
`[-(jitter + jitter/2), jitter - jitter/2]`; when the xorshifted state is
below `2^63` (a nonnegative i64) it lies in `[-jitter/2, jitter - jitter/2]`,
which is the claimed `[-jitter/2, +jitter/2]` up to the integer rounding of
`jitter/2` for odd jitter. -/
theorem sensory_noise_range :
    ∀ (jitter seed : Nat), 0 < jitter →
      -((jitter : Int) + (jitter : Int) / 2) ≤ sensory_noise jitter seed ∧
      sensory_noise jitter seed ≤ (jitter : Int) - (jitter : Int) / 2 ∧
      (xorshift seed < 9223372036854775808 →
        -((jitter : Int) / 2) ≤ sensory_noise jitter seed) := by
  intro j seed hj
  have hs := xorshift_lt seed
  have e1 : 0 ≤ ((xorshift seed : Nat) : Int) % ((j : Int) + 1) :=
    Int.emod_nonneg _ (by omega)
  have e2 : ((xorshift seed : Nat) : Int) % ((j : Int) + 1) < (j : Int) + 1 :=
    Int.emod_lt_of_pos _ (by omega)
  have e3 : 0 ≤ (-(((xorshift seed : Nat) : Int) - 18446744073709551616)) % ((j : Int) + 1) :=
    Int.emod_nonneg _ (by omega)
  have e4 : (-(((xorshift seed : Nat) : Int) - 18446744073709551616)) % ((j : Int) + 1) < (j : Int) + 1 :=
    Int.emod_lt_of_pos _ (by omega)
  unfold sensory_noise tmod u64_as_i64
  refine ⟨?_, ?_, ?_⟩
  · split_ifs <;> omega
  · split_ifs <;> omega
  · intro hlt
    split_ifs <;> omega

/-- C8 (witness): at jitter 4 and seed 0 the noise -2 meets all bounds. -/
theorem sensory_noise_range_witness :
    -((4 : Int) / 2) ≤ sensory_noise 4 0 :=
  (sensory_noise_range 4 0 (by decide)).2.2 (by decide)

/-- C3: for a channel whose Weber-quantized input is nonzero, the stages
before the threshold never read the receptor mode; in phasic mode a
post-jitter value with absolute magnitude below `(255 - sensitivity) * 4`
is zeroed before the elasticity smoothing; in tonic mode the threshold
stage is the identity on every value, and the identical post-jitter value
(for the identical configuration, input and seed) reaches the smoothing
through the i32 clamp. -/
theorem sensory_threshold_phasic_tonic :
    ∀ (t : FiberTract) (x prev : Int) (seed : Nat),
      weber_quantize x ≠ 0 →
      (∀ m : ReceptorMode,
        sensory_pre_threshold { t with receptor_mode := m } (weber_quantize x) seed =
          sensory_pre_threshold t (weber_quantize x) seed) ∧
      (∀ v : Int, sensory_threshold_stage ReceptorMode.Tonic t.sensitivity v = v) ∧
      (t.receptor_mode = ReceptorMode.Phasic →
        |(sensory_pre_threshold t (weber_quantize x) seed).1| < ((255 : Int) - t.sensitivity) * 4 →
        sensory_channel t x prev seed =
          (sensory_smooth t.elasticity prev 0,
           (sensory_pre_threshold t (weber_quantize x) seed).2)) ∧
      (t.receptor_mode = ReceptorMode.Tonic →
        sensory_channel t x prev seed =
          (sensory_smooth t.elasticity prev
             (clampI32 (sensory_pre_threshold t (weber_quantize x) seed).1),
           (sensory_pre_threshold t (weber_quantize x) seed).2)) := by
  intro t x prev seed hq
  refine ⟨?_, ?_, ?_, ?_⟩
  · intro m
    rfl
  · intro v
    simp [sensory_threshold_stage]
  · intro hmode hv
    simp only [sensory_channel, hmode]
    rw [if_neg hq]
    simp only [sensory_threshold_stage, if_pos rfl]
    rw [if_pos hv]
    simp [show clampI32 0 = (0 : Int) from by decide]
  · intro hmode
    simp only [sensory_channel, hmode]
    rw [if_neg hq]
    simp [sensory_threshold_stage]

/-- C3 (witness): the source's `tonic_receptor_bypasses_threshold`
scenario: raw 500 quantizes to 495, the pipeline yields 193, below the
phasic threshold 300, yet the tonic tract outputs 193. -/
theorem sensory_threshold_phasic_tonic_witness :
    sensory_channel tonic_test_tract 500 0 0 = (193, 0) := by
  have h := (sensory_threshold_phasic_tonic tonic_test_tract 500 0 0 (by decide)).2.2.2
    (by decide)
  exact h.trans (by decide)

/-!
Supporting lemmas for the frame properties of transmission.
-/

/-- The motor loop produces exactly one output per previous-output slot. -/
theorem motor_run_length (t : FiberTract) :
    ∀ (inputs prevs : List Signal) (seed : Nat),
      (motor_run t inputs prevs seed).length = prevs.length := by
  intro inputs
  induction inputs with
  | nil =>
      intro prevs seed
      simp [motor_run]
  | cons a as ih =>
      intro prevs seed
      cases prevs with
      | nil => simp [motor_run]
      | cons p ps => simp [motor_run, ih]

/-- The sensory loop produces exactly one output per previous-output slot. -/
theorem sensory_run_length (t : FiberTract) :
    ∀ (inputs : List Int) (prevs : List Int) (seed : Nat),
      (sensory_run t inputs prevs seed).length = prevs.length := by
  intro inputs
  induction inputs with
  | nil =>
      intro prevs seed
      simp [sensory_run]
  | cons a as ih =>
      intro prevs seed
      cases prevs with
      | nil => simp [sensory_run]
      | cons p ps => simp [sensory_run, ih]

/-- The motor loop over an empty previous-output buffer is empty. -/
theorem motor_run_nil (t : FiberTract) (inputs : List Signal) (seed : Nat) :
    motor_run t inputs [] seed = [] := by
  cases inputs <;> simp [motor_run]

/-- The sensory loop over an empty previous-output buffer is empty. -/
theorem sensory_run_nil (t : FiberTract) (inputs : List Int) (seed : Nat) :
    sensory_run t inputs [] seed = [] := by
  cases inputs <;> simp [sensory_run]

/-- Rewriting a tract's motor buffers with their own (empty) values is the
identity. -/
theorem tract_update_motor_self (t : FiberTract) (h1 : t.motor_signals = [])
    (h2 : t.motor_prev = []) :
    { t with motor_signals := ([] : List Signal), motor_prev := ([] : List Signal) } = t := by
  cases t
  simp_all

/-- Rewriting a tract's sensory buffers with their own (empty) values is the
identity. -/
theorem tract_update_sensory_self (t : FiberTract) (h1 : t.sensory_signals = [])
    (h2 : t.sensory_prev = []) :
    { t with sensory_signals := ([] : List Int), sensory_prev := ([] : List Int) } = t := by
  cases t
  simp_all

/-- C9: transmission mutates only the signal and previous-output buffers:
both operations preserve the eight physical properties, the receptor mode,
the kind, the dimension, both adaptation counters and the opposite
representation's buffers; when the previous-output buffer has length `dim`,
the output buffers again have length `dim`; and on a zero-dimension tract
(whose buffers are accordingly empty) both operations are the identity. -/
theorem transmit_frame :
    ∀ (t : FiberTract) (minput : List Signal) (sinput : List Int) (seed : Nat),
      ((transmit_motor t minput seed).kind = t.kind ∧
       (transmit_motor t minput seed).dim = t.dim ∧
       (transmit_motor t minput seed).conductivity = t.conductivity ∧
       (transmit_motor t minput seed).jitter = t.jitter ∧
       (transmit_motor t minput seed).fatigue = t.fatigue ∧
       (transmit_motor t minput seed).endurance = t.endurance ∧
       (transmit_motor t minput seed).elasticity = t.elasticity ∧
       (transmit_motor t minput seed).sensitivity = t.sensitivity ∧
       (transmit_motor t minput seed).gain = t.gain ∧
       (transmit_motor t minput seed).strength = t.strength ∧
       (transmit_motor t minput seed).receptor_mode = t.receptor_mode ∧
       (transmit_motor t minput seed).lifetime_activations = t.lifetime_activations ∧
       (transmit_motor t minput seed).recent_density = t.recent_density ∧
       (transmit_motor t minput seed).sensory_signals = t.sensory_signals ∧
       (transmit_motor t minput seed).sensory_prev = t.sensory_prev) ∧
      ((transmit_sensory t sinput seed).kind = t.kind ∧
       (transmit_sensory t sinput seed).dim = t.dim ∧
       (transmit_sensory t sinput seed).conductivity = t.conductivity ∧
       (transmit_sensory t sinput seed).jitter = t.jitter ∧
       (transmit_sensory t sinput seed).fatigue = t.fatigue ∧
       (transmit_sensory t sinput seed).endurance = t.endurance ∧
       (transmit_sensory t sinput seed).elasticity = t.elasticity ∧
       (transmit_sensory t sinput seed).sensitivity = t.sensitivity ∧
       (transmit_sensory t sinput seed).gain = t.gain ∧
       (transmit_sensory t sinput seed).strength = t.strength ∧
       (transmit_sensory t sinput seed).receptor_mode = t.receptor_mode ∧
       (transmit_sensory t sinput seed).lifetime_activations = t.lifetime_activations ∧
       (transmit_sensory t sinput seed).recent_density = t.recent_density ∧
       (transmit_sensory t sinput seed).motor_signals = t.motor_signals ∧
       (transmit_sensory t sinput seed).motor_prev = t.motor_prev) ∧
      (t.motor_prev.length = t.dim →
        (transmit_motor t minput seed).motor_signals.length = t.dim ∧
        (transmit_motor t minput seed).motor_prev.length = t.dim) ∧
      (t.sensory_prev.length = t.dim →
        (transmit_sensory t sinput seed).sensory_signals.length = t.dim ∧
        (transmit_sensory t sinput seed).sensory_prev.length = t.dim) ∧
      (t.dim = 0 → t.motor_signals = [] → t.motor_prev = [] →
        transmit_motor t minput seed = t) ∧
      (t.dim = 0 → t.sensory_signals = [] → t.sensory_prev = [] →
        transmit_sensory t sinput seed = t) := by
  intro t minput sinput seed
  refine ⟨⟨rfl, rfl, rfl, rfl, rfl, rfl, rfl, rfl, rfl, rfl, rfl, rfl, rfl, rfl, rfl⟩,
          ⟨rfl, rfl, rfl, rfl, rfl, rfl, rfl, rfl, rfl, rfl, rfl, rfl, rfl, rfl, rfl⟩,
          ?_, ?_, ?_, ?_⟩
  · intro h
    constructor
    · simpa [transmit_motor, motor_run_length] using h
    · simpa [transmit_motor, motor_run_length] using h
  · intro h
    constructor
    · simpa [transmit_sensory, sensory_run_length] using h
    · simpa [transmit_sensory, sensory_run_length] using h
  · intro hd hm hp
    simp only [transmit_motor, hp, motor_run_nil]
    exact tract_update_motor_self t hm hp
  · intro hd hm hp
    simp only [transmit_sensory, hp, sensory_run_nil]
    exact tract_update_sensory_self t hm hp

/-- C9 (witness): on the degenerate zero-dimension motor tract both
transmissions are the identity, and the tract's properties are untouched by
a motor transmission on a one-channel tract. -/
theorem transmit_frame_witness :
    transmit_motor (new_motor FiberTractKind.MotorSkeletal 0)
        [{ polarity := 1, magnitude := 5 }] 3 =
      new_motor FiberTractKind.MotorSkeletal 0 ∧
    transmit_sensory (new_sensory FiberTractKind.Proprioceptive 0) [7] 3 =
      new_sensory FiberTractKind.Proprioceptive 0 := by
  constructor
  · exact (transmit_frame (new_motor FiberTractKind.MotorSkeletal 0)
      [{ polarity := 1, magnitude := 5 }] [] 3).2.2.2.2.1 rfl rfl rfl
  · exact (transmit_frame (new_sensory FiberTractKind.Proprioceptive 0)
      [] [7] 3).2.2.2.2.2 rfl rfl rfl

/-- C2: evaluation of the adaptation engine at an active tract.  The tract
is active, yet one adaptation tick under the default configuration lowers
conductivity from 128 to 127 instead of raising it to 129 as the claim (and
the source's own `stimulated_tract_myelinates` test) requires: src/adapt.rs
gates myelination on the `input_density` field that the data model never
declares and no code ever writes, so under the only field-free completion
(input density identically zero) the active tick lands in the
demyelination branch. -/
theorem adapt_active_tick_demyelinates :
    is_active active_test_tract = true ∧
    active_test_tract.input_density = 0 ∧
    active_test_tract.conductivity = 128 ∧
    (adapt_tract active_test_tract default_adaptation_config).conductivity = 127 ∧
    sat8add active_test_tract.conductivity
        default_adaptation_config.myelination_rate = 129 ∧
    (127 : Nat) ≠ 129 := by decide

/-- C5: one adaptation tick of an inactive tract (with the undeclared
input-stimulation density at its only consistent value, zero) decreases the
rolling density by `max(1, density/16)` saturating at 0, decreases fatigue
by `recovery_rate + endurance/64` saturating at 0, decreases conductivity
by the demyelination rate and increases jitter by the jitter decay rate
(saturating at 255) whenever the density is below the idle threshold, and
decreases strength by the atrophy rate exactly when the density is zero and
the lifetime activation count is positive — so a never-used tract does not
atrophy. -/
theorem adapt_idle_behavior :
    ∀ (t : FiberTract) (c : AdaptationConfig),
      is_active t = false → t.input_density = 0 → t.fatigue ≤ 255 →
      (adapt_tract t c).recent_density =
        t.recent_density - max 1 (t.recent_density / 16) ∧
      (adapt_tract t c).fatigue = t.fatigue - (c.recovery_rate + t.endurance / 64) ∧
      (t.recent_density < c.idle_threshold →
        (adapt_tract t c).conductivity = t.conductivity - c.demyelination_rate ∧
        (adapt_tract t c).jitter = min (t.jitter + c.jitter_decay_rate) 255) ∧
      (adapt_tract t c).strength =
        (if t.recent_density = 0 ∧ 0 < t.lifetime_activations
         then t.strength - c.atrophy_rate else t.strength) := by
  intro t c hact hin hfat
  simp only [adapt_tract, hact, hin]
  rw [if_neg (by decide : ¬ (false = true)), if_neg (Nat.not_lt_zero c.idle_threshold)]
  simp only [eq_self_iff_true, true_and, if_true]
  refine ⟨?_, ?_, ?_, ?_⟩
  · simp only [apply_ite FiberTract.recent_density]
    split_ifs <;> omega
  · simp only [apply_ite FiberTract.fatigue]
    split_ifs <;> simp only [sat8add] <;> omega
  · intro hlt
    constructor
    · simp only [apply_ite FiberTract.conductivity]
      split_ifs <;> omega
    · simp only [apply_ite FiberTract.jitter]
      split_ifs <;> simp only [sat8add]
  · simp only [apply_ite FiberTract.strength]
    split_ifs <;> omega

/-- C5 (witness): the idle test tract (density 5, fatigue 200, endurance
128, strength 100, three lifetime activations) under the default rates:
density decays to 4, fatigue recovers to 195, conductivity demyelinates to
127 and jitter decays to 129 (density 5 is below the idle threshold 10),
and strength stays 100 (density is nonzero). -/
theorem adapt_idle_behavior_witness :
    (adapt_tract idle_test_tract default_adaptation_config).recent_density = 4 ∧
    (adapt_tract idle_test_tract default_adaptation_config).fatigue = 195 ∧
    (adapt_tract idle_test_tract default_adaptation_config).conductivity = 127 ∧
    (adapt_tract idle_test_tract default_adaptation_config).jitter = 129 ∧
    (adapt_tract idle_test_tract default_adaptation_config).strength = 100 := by
  have h := adapt_idle_behavior idle_test_tract default_adaptation_config
    (by decide) (by decide) (by decide)
  refine ⟨h.1.trans (by decide), h.2.1.trans (by decide),
          ((h.2.2.1 (by decide)).1).trans (by decide),
          ((h.2.2.1 (by decide)).2).trans (by decide),
          h.2.2.2.trans (by decide)⟩
